import Mathlib

/-!
Shallow embedding of `uniref_calour/uniref_calour.py` (class `Uniref`):
the adapter that queries the UniRef REST API
(`get_seq_annotation_strings`) and opens a browser page for an
annotation (`show_annotation_info`).

Python-side values are modelled explicitly: JSON bodies as an inductive
`Json`, Python runtime failures as `PyError`, the `requests.Response`
object as `Response` with an explicit attribute-lookup function, and the
network as a function from URL to response. Fallible Python evaluation
is `Except PyError`.
-/

/-- JSON values as produced by `res.json()`; the shapes the adapter touches
are strings, arrays and objects. -/
inductive Json where
  | str (s : String)
  | arr (xs : List Json)
  | obj (fields : List (String × Json))

/-- Python runtime errors that the adapter's code can raise. -/
inductive PyError where
  | attributeError (msg : String)
  | keyError (key : String)
  | typeError (msg : String)
deriving DecidableEq, Repr

/-- The single-quote character, used by Python `repr` of strings. -/
def squote : String := String.singleton (Char.ofNat 39)

mutual

/-- Python `repr` of a JSON value (string escaping inside quotes is not
modelled; no behaviour in this file depends on it). -/
def Json.pyRepr : Json → String
  | .str s => squote ++ s ++ squote
  | .arr xs => "[" ++ pyReprList xs ++ "]"
  | .obj fs => "\x7b" ++ pyReprFields fs ++ "\x7d"

/-- Comma-separated `repr` of list elements. -/
def pyReprList : List Json → String
  | [] => ""
  | [x] => x.pyRepr
  | x :: y :: xs => x.pyRepr ++ ", " ++ pyReprList (y :: xs)

/-- Comma-separated `repr` of dict items. -/
def pyReprFields : List (String × Json) → String
  | [] => ""
  | [(k, v)] => squote ++ k ++ squote ++ ": " ++ v.pyRepr
  | (k, v) :: f :: fs => squote ++ k ++ squote ++ ": " ++ v.pyRepr ++ ", " ++ pyReprFields (f :: fs)

end

/-- Python `str()` of a JSON value, as applied by the `%s` format
specifier: a string formats verbatim, containers format as their repr. -/
def Json.pyStr : Json → String
  | .str s => s
  | j => j.pyRepr

/-- Python subscript `j[k]` with a string key: key lookup on a dict,
`KeyError` when absent, `TypeError` on lists and strings. -/
def Json.subscript (j : Json) (k : String) : Except PyError Json :=
  match j with
  | .obj fs =>
      match fs.find? (fun p => p.1 == k) with
      | some p => .ok p.2
      | none => .error (.keyError k)
  | .arr _ => .error (.typeError "list indices must be integers or slices, not str")
  | .str _ => .error (.typeError "string indices must be integers")

/-- Python equality between a JSON value and a string: only a JSON string
with the same characters compares equal. -/
def Json.eqStr (j : Json) (k : String) : Bool :=
  match j with
  | .str s => s == k
  | _ => false

/-- Python membership `k in j` for a string `k`: key membership on a dict,
element equality on a list, substring test on a string. -/
def Json.contains (j : Json) (k : String) : Except PyError Bool :=
  match j with
  | .obj fs => .ok (fs.any (fun p => p.1 == k))
  | .arr xs => .ok (xs.any (fun x => x.eqStr k))
  | .str s => .ok (if k.isEmpty then true else (s.splitOn k).length > 1)

/-- Python iteration `for x in j`: a list yields its elements, a dict its
keys, a string its characters as one-character strings. -/
def Json.iter (j : Json) : Except PyError (List Json) :=
  match j with
  | .arr xs => .ok xs
  | .obj fs => .ok (fs.map (fun p => Json.str p.1))
  | .str s => .ok (s.toList.map (fun c => Json.str (String.singleton c)))

/-- A `requests.Response` as the adapter observes it: the HTTP status code
and the parsed JSON body returned by `res.json()`. -/
structure Response where
  status_code : Nat
  body : Json

/-- Attribute lookup of an integer-valued attribute on a
`requests.Response` object. Per the requests API the status lives in
`status_code`; there is no attribute named `code` (that is the urllib
interface), so `res.code` raises `AttributeError`. -/
def Response.getattrNat (r : Response) (a : String) : Except PyError Nat :=
  if a = "status_code" then .ok r.status_code
  else .error (.attributeError ("Response object has no attribute " ++ a))

/-- Shape of a Python pair: the source builds most annotation entries as
2-tuples but the name entry as a 2-element list. -/
inductive PairShape where
  | tuple
  | list
deriving DecidableEq, Repr

/-- One annotation entry appended to `shortdesc`: the detail dict (all
values the source stores there are strings), the summary string, and
whether the source wrote it as a tuple or as a list. -/
structure Entry where
  detail : List (String × String)
  summary : String
  shape : PairShape
deriving DecidableEq, Repr

/-- `self.uniref_url`, set in `Uniref.__init__`. -/
def uniref_url : String := "https://rest.uniprot.org/uniref/"

/-- The URL passed to `requests.get`: `self.uniref_url + 'search?query=' + feature`. -/
def queryUrl (feature : String) : String :=
  uniref_url ++ "search?query=" ++ feature

/-- The first entry: `({'unirefid':feature,'annotationtype':'other'},feature)`,
a tuple. -/
def identifierEntry (feature : String) : Entry :=
  ⟨[("unirefid", feature), ("annotationtype", "other")], feature, .tuple⟩

/-- The entry the non-200 branch would append:
`({'annotationtype':'other'},'uniref query failed. code %d' % res.code)`,
a tuple. -/
def failureEntry (code : Nat) : Entry :=
  ⟨[("annotationtype", "other")], "uniref query failed. code " ++ toString code, .tuple⟩

/-- Evaluation of one iteration of the inner loop
`for corg in cres['organisms']`: the appended entry
`({'annotationtype':'other'},'organism: %s' % corg['scientificName'])`,
a tuple. -/
def organismEntryOf (corg : Json) : Except PyError Entry := do
  let sci ← corg.subscript "scientificName"
  pure ⟨[("annotationtype", "other")], "organism: " ++ sci.pyStr, .tuple⟩

/-- Python `for` loop over a list where each iteration can raise: the
loop stops at the first error, otherwise collects every iteration's
value in order. -/
def forExcept {α β : Type} (f : α → Except PyError β) : List α → Except PyError (List β)
  | [] => .ok []
  | x :: xs => do
      let y ← f x
      let ys ← forExcept f xs
      pure (y :: ys)

/-- Evaluation of one iteration of the outer loop `for cres in res`: the
name entry `[{'annotationtype':'other'},'name: %s' % cres['name']]` (a
list, not a tuple), then, when `'organisms' in cres`, one organism entry
per element of `cres['organisms']`. -/
def processRecord (cres : Json) : Except PyError (List Entry) := do
  let nameVal ← cres.subscript "name"
  let nameEntry : Entry := ⟨[("annotationtype", "other")], "name: " ++ nameVal.pyStr, .list⟩
  let hasOrg ← cres.contains "organisms"
  if hasOrg then do
    let orgsVal ← cres.subscript "organisms"
    let orgs ← orgsVal.iter
    let orgEntries ← forExcept organismEntryOf orgs
    pure (nameEntry :: orgEntries)
  else
    pure [nameEntry]

/-- Observable outcome of one call to `get_seq_annotation_strings`: the
URLs requested over HTTP, in order, and either the returned `shortdesc`
list or the Python error the call raised. -/
structure FetchOutcome where
  requested : List String
  result : Except PyError (List Entry)

/-- Embedding of `Uniref.get_seq_annotation_strings`. `http` models the
network: the response `requests.get` yields for a URL. On a non-200
status the source first evaluates `'uniref query failed. code %d' % res.code`
for `logger.warn` and then again for the appended entry, so `res.code`
is looked up before anything is appended; on a 200 status it reads
`res.json()['results']` and loops over the records. -/
def get_seq_annotation_strings (http : String → Response) (feature : String) : FetchOutcome :=
  let res := http (queryUrl feature)
  { requested := [queryUrl feature],
    result :=
      if res.status_code ≠ 200 then do
        let _ ← res.getattrNat "code"
        let code ← res.getattrNat "code"
        pure [identifierEntry feature, failureEntry code]
      else do
        let results ← res.body.subscript "results"
        let records ← results.iter
        let blocks ← forExcept processRecord records
        pure (identifierEntry feature :: blocks.flatten) }

/-- A Python value passed to `show_annotation_info`: either a string or a
dict with string values (e.g. the detail mapping from
`get_seq_annotation_strings`). -/
inductive PyValue where
  | str (s : String)
  | dict (fields : List (String × String))
deriving DecidableEq, Repr

/-- Python `+` with a string on the left: concatenation when the right
operand is a string, `TypeError` otherwise (no stringification). -/
def pyAdd (s : String) (v : PyValue) : Except PyError String :=
  match v with
  | .str t => .ok (s ++ t)
  | .dict _ => .error (.typeError "can only concatenate str (not \"dict\") to str")

/-- The local `uniref_base` of `show_annotation_info`. -/
def uniref_base : String := "https://www.uniprot.org/uniref/"

/-- A call to `webbrowser.open`: the URL and the `new` argument. -/
structure BrowserCall where
  url : String
  new : Nat
deriving DecidableEq, Repr

/-- Embedding of `Uniref.show_annotation_info`: evaluate
`uniref_base + annotation` (which can raise before any browser launch),
then call `webbrowser.open` on it with `new=2`. -/
def show_annotation_info ( annotation : PyValue) : Except PyError BrowserCall := do
  let url ← pyAdd uniref_base annotation
  pure ⟨url, 2⟩

/-- A constant network environment: every URL yields the same response. -/
def httpConst (status : Nat) (body : Json) : String → Response :=
  fun _ => ⟨status, body⟩

/-- Inversion of a successful `Except` bind: the first computation
succeeded and its value leads to the final value. -/
theorem except_bind_ok {ε α β : Type} {x : Except ε α} {f : α → Except ε β} {b : β}
    (h : x >>= f = Except.ok b) : ∃ a, x = Except.ok a ∧ f a = Except.ok b := by
  cases x with
  | error e => exact absurd h (by simp [Bind.bind, Except.bind])
  | ok a => exact ⟨a, rfl, h⟩

/-- Evaluation of the attribute access `res.code`: a `requests.Response`
has no attribute named `code`, so it raises `AttributeError`. -/
theorem getattr_code (r : Response) :
    r.getattrNat "code"
      = Except.error (PyError.attributeError "Response object has no attribute code") := rfl

/-- C1: refuted at a concrete input; the code contradicts the claim. With
a 404 response, `get_seq_annotation_strings` raises `AttributeError`
while evaluating `res.code` in the failure branch (a `requests.Response`
only has `status_code`), so no warning is logged, no failure entry is
appended, and no two-entry list is returned. -/
theorem non200_raises_attributeError :
    (get_seq_annotation_strings (httpConst 404 (Json.obj [])) "UniRef90_A0A174LDE8").result
      = Except.error (PyError.attributeError "Response object has no attribute code") := rfl

/-- C2: refuted on the failure half of the claim. On a remote-status
failure (here HTTP 500) the call raises `AttributeError` from `res.code`
and returns no sequence at all, so the returned sequence cannot contain
the identifier echo there. -/
theorem failure_path_returns_no_list :
    (get_seq_annotation_strings (httpConst 500 (Json.obj [("results", Json.arr [])]))
        "UniRef90_ABC").result
      = Except.error (PyError.attributeError "Response object has no attribute code") := rfl

/-- C3: whenever `get_seq_annotation_strings` returns a list, its first
entry is the identifier echo
`({'unirefid': feature, 'annotationtype': 'other'}, feature)`, a tuple
whose summary is the feature verbatim. -/
theorem first_entry_is_identifier_echo (http : String → Response) (feature : String)
    (s : List Entry)
    (h : (get_seq_annotation_strings http feature).result = Except.ok s) :
    s.head? = some ⟨[("unirefid", feature), ("annotationtype", "other")],
      feature, PairShape.tuple⟩ := by
  unfold get_seq_annotation_strings at h
  dsimp only at h
  split at h
  · obtain ⟨c, hc, -⟩ := except_bind_ok h
    rw [getattr_code] at hc
    exact Except.noConfusion hc
  · obtain ⟨results, hres, h⟩ := except_bind_ok h
    obtain ⟨records, hrec, h⟩ := except_bind_ok h
    obtain ⟨blocks, hblocks, h⟩ := except_bind_ok h
    cases h
    rfl

/-- C3 witness: at a 200 response with no results and feature
`UniRef90_A0A174LDE8`, the returned list's head is the identifier echo. -/
theorem first_entry_is_identifier_echo_witness :
    ([identifierEntry "UniRef90_A0A174LDE8"] : List Entry).head?
      = some ⟨[("unirefid", "UniRef90_A0A174LDE8"), ("annotationtype", "other")],
          "UniRef90_A0A174LDE8", PairShape.tuple⟩ :=
  first_entry_is_identifier_echo (httpConst 200 (Json.obj [("results", Json.arr [])]))
    "UniRef90_A0A174LDE8" [identifierEntry "UniRef90_A0A174LDE8"] rfl

/-- C4: on a 200 response with one result record of name `x` and one
organism of scientific name `y`, the call returns exactly the identifier
line, a `name: x` line and an `organism: y` line, in that order. -/
theorem success_name_and_organism_lines (feature x y : String) :
    (get_seq_annotation_strings
        (httpConst 200 (Json.obj [("results", Json.arr
          [Json.obj [("name", Json.str x),
                     ("organisms", Json.arr [Json.obj [("scientificName", Json.str y)]])]])]))
        feature).result
      = Except.ok [identifierEntry feature,
          ⟨[("annotationtype", "other")], "name: " ++ x, PairShape.list⟩,
          ⟨[("annotationtype", "other")], "organism: " ++ y, PairShape.tuple⟩] := rfl

/-- C5: on a 200 response with an empty `results` list, the call returns
exactly the one identifier line. -/
theorem empty_results_identifier_only (feature : String) :
    (get_seq_annotation_strings (httpConst 200 (Json.obj [("results", Json.arr [])]))
        feature).result
      = Except.ok [identifierEntry feature] := rfl

/-- C6: a result record without an `organisms` key contributes exactly
its name line — no organism line and no error. -/
theorem no_organisms_key_no_organism_line (cres : Json) (n : Json)
    (hname : cres.subscript "name" = Except.ok n)
    (horg : cres.contains "organisms" = Except.ok false) :
    processRecord cres
      = Except.ok [⟨[("annotationtype", "other")], "name: " ++ n.pyStr, PairShape.list⟩] := by
  unfold processRecord
  rw [hname, horg]
  rfl

/-- C6 witness: a record with only a `name` key yields exactly the name
line. -/
theorem no_organisms_key_witness :
    processRecord (Json.obj [("name", Json.str "cytochrome")])
      = Except.ok [⟨[("annotationtype", "other")],
          "name: " ++ (Json.str "cytochrome").pyStr, PairShape.list⟩] :=
  no_organisms_key_no_organism_line (Json.obj [("name", Json.str "cytochrome")])
    (Json.str "cytochrome") rfl rfl

/-- C7: the request URL is the exact concatenation of the base, the
literal `search?query=` and the feature identifier, with no encoding;
exactly one request is made. -/
theorem query_url_is_plain_concatenation (http : String → Response) (feature : String) :
    (get_seq_annotation_strings http feature).requested
      = ["https://rest.uniprot.org/uniref/search?query=" ++ feature] := rfl

/-- C8: on a string input, `show_annotation_info` performs the browser
call on the exact concatenation of the fixed base and the input, with
`new = 2`, and raises nothing. -/
theorem viewer_url_and_new_window (s : String) :
    show_annotation_info (PyValue.str s)
      = Except.ok ⟨"https://www.uniprot.org/uniref/" ++ s, 2⟩ := rfl

/-- Every entry produced by the inner organism loop is a tuple. -/
theorem forExcept_organism_shapes (orgs : List Json) (es : List Entry)
    (h : forExcept organismEntryOf orgs = Except.ok es) :
    ∀ e ∈ es, e.shape = PairShape.tuple := by
  induction orgs generalizing es with
  | nil =>
    unfold forExcept at h
    cases h
    intro e he
    cases he
  | cons x xs ih =>
    unfold forExcept at h
    obtain ⟨y, hy, h⟩ := except_bind_ok h
    obtain ⟨ys, hys, h⟩ := except_bind_ok h
    cases h
    intro e he
    rcases List.mem_cons.mp he with he | he
    · subst he
      unfold organismEntryOf at hy
      obtain ⟨sci, hs, hy⟩ := except_bind_ok hy
      cases hy
      rfl
    · exact ih ys hys e he

/-- C9: only the name branch produces the list shape. The identifier
entry and the (unreachable) failure entry are tuples, and each record's
entries are its name entry — a list — followed only by organism entries,
which are tuples. -/
theorem only_name_entries_are_lists :
    (∀ feature, (identifierEntry feature).shape = PairShape.tuple) ∧
    (∀ code, (failureEntry code).shape = PairShape.tuple) ∧
    (∀ cres es, processRecord cres = Except.ok es →
      es.head?.map Entry.shape = some PairShape.list ∧
      ∀ e ∈ es.tail, e.shape = PairShape.tuple) := by
  refine ⟨fun _ => rfl, fun _ => rfl, fun cres es h => ?_⟩
  unfold processRecord at h
  obtain ⟨nameVal, hn, h⟩ := except_bind_ok h
  obtain ⟨hasOrg, ho, h⟩ := except_bind_ok h
  split at h
  · obtain ⟨orgsVal, horgs, h⟩ := except_bind_ok h
    obtain ⟨orgs, hiter, h⟩ := except_bind_ok h
    obtain ⟨orgEntries, hes, h⟩ := except_bind_ok h
    cases h
    exact ⟨rfl, forExcept_organism_shapes orgs orgEntries hes⟩
  · cases h
    exact ⟨rfl, fun e he => absurd he (List.not_mem_nil e)⟩

/-- C9 witness: a record with only a `name` key yields a single entry of
list shape and an empty (hence all-tuple) tail. -/
theorem only_name_entries_are_lists_witness :
    ([⟨[("annotationtype", "other")], "name: " ++ (Json.str "abc").pyStr,
        PairShape.list⟩] : List Entry).head?.map Entry.shape = some PairShape.list ∧
    ∀ e ∈ ([⟨[("annotationtype", "other")], "name: " ++ (Json.str "abc").pyStr,
        PairShape.list⟩] : List Entry).tail, e.shape = PairShape.tuple :=
  only_name_entries_are_lists.2.2 (Json.obj [("name", Json.str "abc")])
    [⟨[("annotationtype", "other")], "name: " ++ (Json.str "abc").pyStr, PairShape.list⟩] rfl

/-- C10: on a dict input (such as the detail mapping), the string
concatenation `uniref_base + annotation` raises `TypeError`, so the call
errors out before any browser launch and stringifies nothing. -/
theorem dict_annotation_raises_typeError (fields : List (String × String)) :
    show_annotation_info (PyValue.dict fields)
      = Except.error
          (PyError.typeError "can only concatenate str (not \"dict\") to str") := rfl
